import Mathlib

/-!
Verification of the triage orchestration engine of the `5g-triage-agent`
repository: a shallow embedding, in Lean 4, of the retry loop
(`graph.py`), the deterministic scorers (`infra_agent.py`,
`evidence_quality.py`), the RCA decision step (`rca_agent.py`), the
reference-procedure deviation detector and its storage retry layer
(`memgraph/connection.py`), and the dual-path evidence fetch primitive
(`logs_agent.py`, `metrics_agent.py`).

Python floats are modelled as exact rationals (`ℚ`): every arithmetic
operation performed by the embedded code (comparison, weighted sum of a
handful of decimal constants, `min`) is exact at the magnitudes involved.
Python dicts that the code builds key-by-key are modelled as insertion
ordered association lists.  Network and database calls are modelled by
explicit outcome-valued behaviour functions, keeping the code's exact
control flow (which exception classes are caught where, what is retried,
what propagates).
-/

/-- Substring test on lists of characters: `pat` occurs contiguously in
`l`.  Models both the Cypher `CONTAINS` operator and Python's
`needle in haystack` for strings. -/
def listHasInfix (l pat : List Char) : Bool :=
  pat.isPrefixOf l ||
    (match l with
     | [] => false
     | _ :: t => listHasInfix t pat)

/-- `strContains hay pat`: `pat` is a substring of `hay`. -/
def strContains (hay pat : String) : Bool :=
  listHasInfix hay.toList pat.toList

/-- Python `max(generator, default=0)`: maximum of a list of rationals,
`0` when the list is empty (values themselves may be negative, in which
case the true maximum, not `0`, is returned on a non-empty list). -/
def pyMax : List ℚ → ℚ
  | [] => 0
  | v :: vs => vs.foldl max v

/-- Python dict assignment `d[k] = v` on an insertion-ordered
association list: overwrite in place when the key exists, append
otherwise. -/
def pyDictSet {α : Type} (l : List (String × α)) (k : String) (v : α) :
    List (String × α) :=
  if l.any (fun p => p.1 == k) then
    l.map (fun p => if p.1 == k then (k, v) else p)
  else
    l ++ [(k, v)]

/-- Python truthiness of an optional container (`state.get(key)` where
the value is a dict or list or `None`): `None` and the empty container
are falsy. -/
def pyTruthy {α : Type} : Option (List α) → Bool
  | none => false
  | some l => !l.isEmpty

/-- The configuration fields of `TriageAgentConfig` (config.py) used by
the triage core.  Numeric fields are rationals; the Python defaults are
decimal literals, represented exactly. -/
structure TriageAgentConfig where
  memgraph_max_retries : ℕ
  max_attempts : ℕ
  min_confidence_default : ℚ
  min_confidence_relaxed : ℚ
  high_evidence_threshold : ℚ
  infra_weight_restarts : ℚ
  infra_weight_oom : ℚ
  infra_weight_pod_status : ℚ
  infra_weight_resources : ℚ
  restart_threshold_critical : ℚ
  restart_threshold_high : ℚ
  restart_factor_high : ℚ
  restart_factor_low : ℚ
  memory_saturation_pct : ℚ
  cpu_saturation_cores : ℚ
  cpu_saturation_factor : ℚ
  pod_pending_factor : ℚ
  infra_root_cause_threshold : ℚ
  infra_triggered_threshold : ℚ
  app_only_threshold : ℚ
  degraded_conf_infra_generic : ℚ
  degraded_conf_infra_specific : ℚ
  degraded_conf_app_unknown : ℚ
  degraded_conf_app_pattern_match : ℚ
  evidence_gap_quality_threshold : ℚ
  evidence_gap_confidence_threshold : ℚ
  eq_score_all_sources : ℚ
  eq_score_traces_plus_one : ℚ
  eq_score_metrics_logs : ℚ
  eq_score_traces_only : ℚ
  eq_score_metrics_only : ℚ
  eq_score_logs_only : ℚ
  eq_score_no_evidence : ℚ
  deriving DecidableEq

/-- The default values of `TriageAgentConfig` (config.py). -/
def defaultConfig : TriageAgentConfig where
  memgraph_max_retries := 3
  max_attempts := 2
  min_confidence_default := 0.70
  min_confidence_relaxed := 0.65
  high_evidence_threshold := 0.80
  infra_weight_restarts := 0.35
  infra_weight_oom := 0.25
  infra_weight_pod_status := 0.20
  infra_weight_resources := 0.20
  restart_threshold_critical := 5
  restart_threshold_high := 3
  restart_factor_high := 0.7
  restart_factor_low := 0.4
  memory_saturation_pct := 90.0
  cpu_saturation_cores := 1.0
  cpu_saturation_factor := 0.8
  pod_pending_factor := 0.6
  infra_root_cause_threshold := 0.80
  infra_triggered_threshold := 0.60
  app_only_threshold := 0.30
  degraded_conf_infra_generic := 0.50
  degraded_conf_infra_specific := 0.60
  degraded_conf_app_unknown := 0.40
  degraded_conf_app_pattern_match := 0.50
  evidence_gap_quality_threshold := 0.50
  evidence_gap_confidence_threshold := 0.70
  eq_score_all_sources := 0.95
  eq_score_traces_plus_one := 0.85
  eq_score_metrics_logs := 0.80
  eq_score_traces_only := 0.50
  eq_score_metrics_only := 0.40
  eq_score_logs_only := 0.35
  eq_score_no_evidence := 0.10

/-- One Prometheus result entry for the infra queries: a pod/container
pair with a sample value (`entry.get("pod")`, `entry.get("container")`,
`entry.get("value")` in infra_agent.py). -/
structure MetricEntry where
  pod : String
  container : String
  value : ℚ
  deriving DecidableEq

/-- One pod-status entry (`entry.get("pod")`, `entry.get("phase")`). -/
structure StatusEntry where
  pod : String
  phase : String
  deriving DecidableEq

/-- The `metrics` dict consumed by `compute_infrastructure_score` and
the `extract_*` helpers: each category is optional (`metrics.get(key,
[])`), `none` modelling an absent key. -/
structure InfraMetrics where
  pod_restarts : Option (List MetricEntry)
  oom_kills : Option (List MetricEntry)
  pod_status : Option (List StatusEntry)
  memory_percent : Option (List MetricEntry)
  cpu_usage : Option (List MetricEntry)
  deriving DecidableEq

/-- Factor 1 of `compute_infrastructure_score` (infra_agent.py lines
87-98): pod-restart factor over the maximum restart count. -/
def restart_factor (cfg : TriageAgentConfig) (metrics : InfraMetrics) : ℚ :=
  let max_restarts := pyMax (((metrics.pod_restarts).getD []).map (fun e => e.value))
  if max_restarts > cfg.restart_threshold_critical then 1.0
  else if max_restarts ≥ cfg.restart_threshold_high then cfg.restart_factor_high
  else if max_restarts ≥ 1 then cfg.restart_factor_low
  else 0.0

/-- Factor 2 (infra_agent.py lines 102-103): binary OOM factor,
`1.0 if oom_kills else 0.0`. -/
def oom_factor (metrics : InfraMetrics) : ℚ :=
  if ((metrics.oom_kills).getD []).isEmpty then 0.0 else 1.0

/-- Factor 3 (infra_agent.py lines 106-113): maximum pod-status factor
across observed pods. -/
def status_factor (cfg : TriageAgentConfig) (metrics : InfraMetrics) : ℚ :=
  ((metrics.pod_status).getD []).foldl
    (fun acc e =>
      if e.phase = "Failed" ∨ e.phase = "Unknown" then max acc 1.0
      else if e.phase = "Pending" then max acc cfg.pod_pending_factor
      else acc) 0.0

/-- Factor 4 (infra_agent.py lines 117-130): resource saturation from
maximum memory percentage and maximum CPU usage. -/
def resource_factor (cfg : TriageAgentConfig) (metrics : InfraMetrics) : ℚ :=
  let max_mem := pyMax (((metrics.memory_percent).getD []).map (fun e => e.value))
  let max_cpu := pyMax (((metrics.cpu_usage).getD []).map (fun e => e.value))
  if max_mem > cfg.memory_saturation_pct then 1.0
  else if max_cpu > cfg.cpu_saturation_cores then cfg.cpu_saturation_factor
  else 0.0

/-- `compute_infrastructure_score` (infra_agent.py lines 81-133): the
4-factor weighted infrastructure score, accumulated in source order and
clamped to `1.0`. -/
def compute_infrastructure_score (cfg : TriageAgentConfig)
    (metrics : InfraMetrics) : ℚ :=
  min (cfg.infra_weight_restarts * restart_factor cfg metrics
    + cfg.infra_weight_oom * oom_factor metrics
    + cfg.infra_weight_pod_status * status_factor cfg metrics
    + cfg.infra_weight_resources * resource_factor cfg metrics) 1.0

/-- `extract_restart_counts` (infra_agent.py): `{pod: restart_count}`
over all `pod_restarts` entries, later entries overwriting earlier ones
for the same pod, in Python-dict insertion order. -/
def extract_restart_counts (metrics : InfraMetrics) : List (String × ℚ) :=
  ((metrics.pod_restarts).getD []).foldl
    (fun acc e => pyDictSet acc e.pod e.value) []

/-- `extract_oom_events` (infra_agent.py): `{pod: oom_count}` for the
`oom_kills` entries with a positive value. -/
def extract_oom_events (metrics : InfraMetrics) : List (String × ℚ) :=
  ((metrics.oom_kills).getD []).foldl
    (fun acc e => if 0 < e.value then pyDictSet acc e.pod e.value else acc) []

/-- Python `if pod not in result: result[pod] = {"cpu": 0.0,
"memory_percent": 0.0}` — ensure a pod key exists with zeroed fields. -/
def ensurePod (acc : List (String × ℚ × ℚ)) (pod : String) :
    List (String × ℚ × ℚ) :=
  if acc.any (fun p => p.1 == pod) then acc else acc ++ [(pod, (0, 0))]

/-- `result[pod]["cpu"] = value` after ensuring the key exists. -/
def setPodCpu (acc : List (String × ℚ × ℚ)) (pod : String) (v : ℚ) :
    List (String × ℚ × ℚ) :=
  (ensurePod acc pod).map (fun p => if p.1 == pod then (p.1, (v, p.2.2)) else p)

/-- `result[pod]["memory_percent"] = value` after ensuring the key exists. -/
def setPodMem (acc : List (String × ℚ × ℚ)) (pod : String) (v : ℚ) :
    List (String × ℚ × ℚ) :=
  (ensurePod acc pod).map (fun p => if p.1 == pod then (p.1, (p.2.1, v)) else p)

/-- `extract_resource_metrics` (infra_agent.py):
`{pod: {"cpu": x, "memory_percent": y}}`, cpu entries first, then
memory entries, each overwriting its own field. -/
def extract_resource_metrics (metrics : InfraMetrics) :
    List (String × ℚ × ℚ) :=
  let withCpu := ((metrics.cpu_usage).getD []).foldl
    (fun acc e => setPodCpu acc e.pod e.value) []
  ((metrics.memory_percent).getD []).foldl
    (fun acc e => setPodMem acc e.pod e.value) withCpu

/-- `extract_node_status` (infra_agent.py): `{pod: phase}` over the
`pod_status` entries. -/
def extract_node_status (metrics : InfraMetrics) : List (String × String) :=
  ((metrics.pod_status).getD []).foldl
    (fun acc e => pyDictSet acc e.pod e.phase) []

/-- `count_concurrent_failures` (infra_agent.py): number of distinct
pods with restarts, OOM kills, or a non-Running phase (a Python set's
size; modelled as the length of the deduplicated name list). -/
def count_concurrent_failures (metrics : InfraMetrics) : ℕ :=
  ((((metrics.pod_restarts).getD []).filter
      (fun e => decide (0 < e.value))).map (fun e => e.pod)
    ++ (((metrics.oom_kills).getD []).filter
      (fun e => decide (0 < e.value))).map (fun e => e.pod)
    ++ (((metrics.pod_status).getD []).filter
      (fun e => !(e.phase == "Running"))).map (fun e => e.pod)).dedup.length

/-- One critical infrastructure event from `extract_critical_events`:
the three dict shapes built there (`type` key `"oom_kill"`,
`"excessive_restarts"` or `"pod_failure"`). -/
inductive CriticalEvent where
  | oomKill (pod container : String) (value : ℚ)
  | excessiveRestarts (pod container : String) (value : ℚ)
  | podFailure (pod phase : String)
  deriving DecidableEq

/-- `extract_critical_events` (infra_agent.py lines 201-233): OOM kills
with positive value, restarts strictly above the critical threshold,
then pods in a failed-like phase, in that order. -/
def extract_critical_events (cfg : TriageAgentConfig)
    (metrics : InfraMetrics) : List CriticalEvent :=
  (((metrics.oom_kills).getD []).filter
      (fun e => decide (0 < e.value))).map
    (fun e => .oomKill e.pod e.container e.value)
  ++ (((metrics.pod_restarts).getD []).filter
      (fun e => decide (cfg.restart_threshold_critical < e.value))).map
    (fun e => .excessiveRestarts e.pod e.container e.value)
  ++ (((metrics.pod_status).getD []).filter
      (fun e => e.phase == "Failed" || e.phase == "Unknown" ||
        e.phase == "CrashLoopBackOff")).map
    (fun e => .podFailure e.pod e.phase)

/-- The `infra_findings` dict assembled by `infra_agent` (infra_agent.py
lines 290-297). -/
structure InfraFindings where
  pod_restarts : List (String × ℚ)
  oom_kills : List (String × ℚ)
  resource_usage : List (String × ℚ × ℚ)
  node_health : List (String × String)
  concurrent_failures : ℕ
  critical_events : List CriticalEvent
  deriving DecidableEq

/-- The findings dict exactly as `infra_agent` builds it from the raw
infra metrics. -/
def infra_agent_findings (cfg : TriageAgentConfig)
    (metrics : InfraMetrics) : InfraFindings where
  pod_restarts := extract_restart_counts metrics
  oom_kills := extract_oom_events metrics
  resource_usage := extract_resource_metrics metrics
  node_health := extract_node_status metrics
  concurrent_failures := count_concurrent_failures metrics
  critical_events := extract_critical_events cfg metrics

/-- A single-quote character, used by Python `str()` of a dict. -/
def pyQuoteChar : String := String.singleton (Char.ofNat 39)

/-- Opening brace of a Python dict rendering. -/
def pyLBrace : String := String.singleton (Char.ofNat 123)

/-- Closing brace of a Python dict rendering. -/
def pyRBrace : String := String.singleton (Char.ofNat 125)

/-- A Python single-quoted string literal. -/
def pyQ (s : String) : String := pyQuoteChar ++ s ++ pyQuoteChar

/-- Python's number rendering inside `str(dict)`.  Rendered via `ℚ`'s
`toString`; this differs in trailing-zero details from CPython's float
formatting but, like it, contains digits, minus and slash only — no
letters — which is all the substring checks in `degraded_mode_analysis`
can observe. -/
def pyNum (q : ℚ) : String := toString q

/-- `str()` of a `{str: number}` dict. -/
def pyStrDictQ (l : List (String × ℚ)) : String :=
  pyLBrace ++ String.intercalate ", "
    (l.map (fun p => pyQ p.1 ++ ": " ++ pyNum p.2)) ++ pyRBrace

/-- `str()` of a `{str: str}` dict. -/
def pyStrDictS (l : List (String × String)) : String :=
  pyLBrace ++ String.intercalate ", "
    (l.map (fun p => pyQ p.1 ++ ": " ++ pyQ p.2)) ++ pyRBrace

/-- `str()` of the `{pod: {"cpu": x, "memory_percent": y}}` dict. -/
def pyStrDictRes (l : List (String × ℚ × ℚ)) : String :=
  pyLBrace ++ String.intercalate ", "
    (l.map (fun p => pyQ p.1 ++ ": " ++
      (pyLBrace ++ pyQ "cpu" ++ ": " ++ pyNum p.2.1 ++ ", " ++
        pyQ "memory_percent" ++ ": " ++ pyNum p.2.2 ++ pyRBrace))) ++ pyRBrace

/-- `str()` of one critical-event dict. -/
def pyStrEvent : CriticalEvent → String
  | .oomKill pod container value =>
      pyLBrace ++ pyQ "type" ++ ": " ++ pyQ "oom_kill" ++ ", " ++
        pyQ "pod" ++ ": " ++ pyQ pod ++ ", " ++
        pyQ "container" ++ ": " ++ pyQ container ++ ", " ++
        pyQ "value" ++ ": " ++ pyNum value ++ pyRBrace
  | .excessiveRestarts pod container value =>
      pyLBrace ++ pyQ "type" ++ ": " ++ pyQ "excessive_restarts" ++ ", " ++
        pyQ "pod" ++ ": " ++ pyQ pod ++ ", " ++
        pyQ "container" ++ ": " ++ pyQ container ++ ", " ++
        pyQ "value" ++ ": " ++ pyNum value ++ pyRBrace
  | .podFailure pod phase =>
      pyLBrace ++ pyQ "type" ++ ": " ++ pyQ "pod_failure" ++ ", " ++
        pyQ "pod" ++ ": " ++ pyQ pod ++ ", " ++
        pyQ "phase" ++ ": " ++ pyQ phase ++ pyRBrace

/-- `str(infra_findings)`: the Python `str()` rendering of the findings
dict, which `degraded_mode_analysis` scans for the literal substrings
`"OOMKilled"` and `"CrashLoop"`. -/
def pyStrFindings (f : InfraFindings) : String :=
  pyLBrace ++
    pyQ "pod_restarts" ++ ": " ++ pyStrDictQ f.pod_restarts ++ ", " ++
    pyQ "oom_kills" ++ ": " ++ pyStrDictQ f.oom_kills ++ ", " ++
    pyQ "resource_usage" ++ ": " ++ pyStrDictRes f.resource_usage ++ ", " ++
    pyQ "node_health" ++ ": " ++ pyStrDictS f.node_health ++ ", " ++
    pyQ "concurrent_failures" ++ ": " ++ toString f.concurrent_failures ++ ", " ++
    pyQ "critical_events" ++ ": " ++
      ("[" ++ String.intercalate ", " (f.critical_events.map pyStrEvent) ++ "]")
  ++ pyRBrace

/-- The deviation record returned by `detect_deviation`
(memgraph/connection.py lines 134-145): smallest-order mismatch with
expected and actual action and NF (participant). -/
structure Deviation where
  deviation_point : ℤ
  expected : String
  actual : String
  expected_nf : String
  actual_nf : String
  deriving DecidableEq

/-- One evidence item of the RCA evidence chain (`EvidenceItem` in
rca_agent.py). -/
structure EvidenceItem where
  timestamp : String
  source : String
  nf : String
  type : String
  content : String
  significance : String
  deriving DecidableEq

/-- One organized log entry as built by `organize_and_annotate_logs`
(logs_agent.py): the shape stored under `state["logs"][nf]`. -/
structure OrganizedLog where
  level : String
  message : String
  timestamp : ℤ
  matched_phase : Option String
  matched_pattern : Option String
  deriving DecidableEq

/-- The dict returned by `generate_final_report` (rca_agent.py lines
281-306).  The human-readable `summary` string (pure presentation,
assembled with `:.2f` float formatting) is not modelled. -/
structure RcaReport where
  incident_id : String
  procedure_name : String
  layer : String
  root_nf : String
  failure_mode : String
  confidence : ℚ
  evidence_chain : List EvidenceItem
  infra_score : ℚ
  evidence_quality_score : ℚ
  degraded_mode : Bool
  deriving DecidableEq

/-- The dict written by `finalize_report` (graph.py lines 39-53). -/
structure GraphReport where
  incident_id : String
  layer : String
  root_nf : Option String
  failure_mode : Option String
  confidence : ℚ
  evidence_chain : List EvidenceItem
  infra_score : ℚ
  evidence_quality_score : ℚ
  degraded_mode : Bool
  attempt_count : ℕ
  deriving DecidableEq

/-- `state["final_report"]` holds either the dict written by the RCA
step (`generate_final_report`) or the one written by the `finalize`
node (`finalize_report`); the Python code stores both under the same
dynamically-typed key. -/
inductive FinalReport where
  | fromRca (r : RcaReport)
  | fromGraph (r : GraphReport)
  deriving DecidableEq

/-- One Prometheus result entry as grouped by `organize_metrics_by_nf`
(metrics_agent.py): its `metric` label set and sample value. -/
structure PromEntry where
  labels : List (String × String)
  value : ℚ
  deriving DecidableEq

/-- The `TriageState` document (state.py), restricted to the fields
read or written by the embedded functions.  `alert`, the DAG-mapping
fields, `discovered_imsis` and `second_attempt_complete` are carried
by the Python state but never touched by the code under verification
and are omitted.  `evidence_gaps` is written by the RCA step without
being declared in the TypedDict; it is a genuine runtime field. -/
structure TriageState where
  incident_id : String
  procedure_name : Option String
  infra_checked : Bool
  infra_score : ℚ
  infra_findings : Option InfraFindings
  metrics : Option (List (String × List PromEntry))
  logs : Option (List (String × List OrganizedLog))
  traces_ready : Bool
  trace_deviations : Option (List Deviation)
  evidence_quality_score : ℚ
  root_nf : Option String
  failure_mode : Option String
  layer : String
  confidence : ℚ
  evidence_chain : List EvidenceItem
  degraded_mode : Bool
  degraded_reason : Option String
  attempt_count : ℕ
  max_attempts : ℕ
  needs_more_evidence : Bool
  evidence_gaps : List String
  final_report : Option FinalReport
  deriving DecidableEq

/-- `compute_evidence_quality` (evidence_quality.py lines 10-37): the
fixed lookup over presence of metrics, logs and traces, written into
`evidence_quality_score` clamped at `1.0`. -/
def compute_evidence_quality (cfg : TriageAgentConfig)
    (state : TriageState) : TriageState :=
  let available_types : List String :=
    (if pyTruthy state.metrics then ["metrics"] else [])
    ++ (if pyTruthy state.logs then ["logs"] else [])
    ++ (if state.traces_ready then ["traces"] else [])
  let quality_score : ℚ :=
    if available_types.length = 3 then cfg.eq_score_all_sources
    else if available_types.length = 2 ∧ "traces" ∈ available_types then
      cfg.eq_score_traces_plus_one
    else if available_types.length = 2 then cfg.eq_score_metrics_logs
    else if "traces" ∈ available_types then cfg.eq_score_traces_only
    else if "metrics" ∈ available_types then cfg.eq_score_metrics_only
    else if "logs" ∈ available_types then cfg.eq_score_logs_only
    else cfg.eq_score_no_evidence
  { state with evidence_quality_score := min quality_score 1.0 }

/-- `generate_final_report` (rca_agent.py lines 281-306). -/
def generate_final_report (state : TriageState) : RcaReport where
  incident_id := state.incident_id
  procedure_name := state.procedure_name.getD "unknown"
  layer := state.layer
  root_nf := state.root_nf.getD "unknown"
  failure_mode := state.failure_mode.getD "unknown"
  confidence := state.confidence
  evidence_chain := state.evidence_chain
  infra_score := state.infra_score
  evidence_quality_score := state.evidence_quality_score
  degraded_mode := state.degraded_mode

/-- The specific-gap accumulation of `identify_evidence_gaps`
(rca_agent.py lines 318-337): missing data sources, low overall
quality, missing detailed infra findings. -/
def identify_specific_gaps (cfg : TriageAgentConfig)
    (state : TriageState) : List String :=
  let gaps : List String := []
  let gaps := if !pyTruthy state.metrics then gaps ++ ["NF metrics data needed"] else gaps
  let gaps := if !pyTruthy state.logs then gaps ++ ["NF logs data needed"] else gaps
  let gaps := if !pyTruthy state.trace_deviations then
    gaps ++ ["UE trace analysis needed"] else gaps
  let gaps := if state.evidence_quality_score < cfg.evidence_gap_quality_threshold then
    gaps ++ ["Overall evidence quality too low"] else gaps
  if cfg.infra_triggered_threshold < state.infra_score ∧
      state.infra_findings.isNone then
    gaps ++ ["Detailed infrastructure findings needed"] else gaps

/-- `identify_evidence_gaps` (rca_agent.py lines 309-344): the specific
gaps, plus the two generic gaps when none were found and confidence is
below the gap-confidence threshold. -/
def identify_evidence_gaps (cfg : TriageAgentConfig)
    (state : TriageState) : List String :=
  let gaps := identify_specific_gaps cfg state
  if gaps.isEmpty ∧ state.confidence < cfg.evidence_gap_confidence_threshold then
    gaps ++ ["Additional temporal analysis needed", "Cross-correlation of events needed"]
  else gaps

/-- The analysis dict consumed by the RCA step: either the parsed LLM
JSON or the dict built by `degraded_mode_analysis`.  Keys read with
`analysis.get(key, default)` in the Python code are optional here
(`evidence_chain` defaults to `[]`, `layer` to `"application"`); keys
read with `analysis[key]` are mandatory. -/
structure Analysis where
  root_nf : String
  failure_mode : String
  confidence : ℚ
  evidence_chain : Option (List EvidenceItem)
  layer : Option String
  deriving DecidableEq

/-- Inner loop of the application branch of `degraded_mode_analysis`:
scan one NF's log entries and stop at the first keyword match
(`"timeout"`, else `"auth"` together with `"fail"`, both on the
lowercased message). -/
def scanLogEntries (cfg : TriageAgentConfig) (nf : String) :
    List OrganizedLog → Option (String × String × ℚ)
  | [] => none
  | e :: rest =>
    let message := e.message.toLower
    if strContains message "timeout" then
      some (nf, "timeout", cfg.degraded_conf_app_pattern_match)
    else if strContains message "auth" && strContains message "fail" then
      some (nf, "authentication_failure", cfg.degraded_conf_app_pattern_match)
    else scanLogEntries cfg nf rest

/-- Outer loop of the application branch: first NF (in dict order)
whose entries produce a keyword match. -/
def scanLogsForKeywords (cfg : TriageAgentConfig) :
    List (String × List OrganizedLog) → Option (String × String × ℚ)
  | [] => none
  | (nf, entries) :: rest =>
    match scanLogEntries cfg nf entries with
    | some r => some r
    | none => scanLogsForKeywords cfg rest

/-- `degraded_mode_analysis` (rca_agent.py lines 347-414): rule-based
fallback when the LLM times out.  High infra score selects the
infrastructure layer, refined to a specific failure mode only when the
literal substring `"OOMKilled"` or `"CrashLoop"` occurs in
`str(infra_findings)`; otherwise the log text is scanned for keyword
patterns. -/
def degraded_mode_analysis (cfg : TriageAgentConfig)
    (state : TriageState) : Analysis :=
  if state.infra_score ≥ cfg.infra_root_cause_threshold then
    let generic := ("infrastructure_issue", cfg.degraded_conf_infra_generic)
    let refined :=
      match state.infra_findings with
      | some f =>
        if strContains (pyStrFindings f) "OOMKilled" then
          ("OOMKilled", cfg.degraded_conf_infra_specific)
        else if strContains (pyStrFindings f) "CrashLoop" then
          ("CrashLoopBackOff", cfg.degraded_conf_infra_specific)
        else generic
      | none => generic
    { root_nf := "pod-level", failure_mode := refined.1,
      confidence := refined.2, evidence_chain := some [],
      layer := some "infrastructure" }
  else
    let found :=
      match state.logs with
      | some l => scanLogsForKeywords cfg l
      | none => none
    match found with
    | some (nf, fm, conf) =>
      { root_nf := nf, failure_mode := fm, confidence := conf,
        evidence_chain := some [], layer := some "application" }
    | none =>
      { root_nf := "unknown", failure_mode := "undetermined",
        confidence := cfg.degraded_conf_app_unknown,
        evidence_chain := some [], layer := some "application" }

/-- Lines 461-465 of rca_agent.py: record the analysis result into the
state. -/
def rca_set_analysis (analysis : Analysis) (state : TriageState) :
    TriageState :=
  { state with
    root_nf := some analysis.root_nf
    failure_mode := some analysis.failure_mode
    confidence := analysis.confidence
    evidence_chain := analysis.evidence_chain.getD []
    layer := analysis.layer.getD "application" }

/-- Lines 467-479 of rca_agent.py: the confidence gate.  The threshold
is the default minimum confidence, replaced by the relaxed one when the
evidence-quality score reaches the high-evidence threshold; at or above
the threshold the final report is written, below it the evidence gaps
are recorded. -/
def rca_confidence_gate (cfg : TriageAgentConfig) (state : TriageState) :
    TriageState :=
  let min_confidence := cfg.min_confidence_default
  let min_confidence :=
    if state.evidence_quality_score ≥ cfg.high_evidence_threshold then
      cfg.min_confidence_relaxed
    else min_confidence
  if state.confidence ≥ min_confidence then
    { state with
      needs_more_evidence := false
      final_report := some (.fromRca (generate_final_report state)) }
  else
    { state with
      needs_more_evidence := true
      evidence_gaps := identify_evidence_gaps cfg state }

/-- `rca_agent_first_attempt` (rca_agent.py lines 418-480).  The
reasoning collaborator is opaque: `llm_result = some a` models a
successful `llm_analyze_evidence` call returning `a`; `none` models the
call raising `TimeoutError`, in which case the degraded flags are set
and `degraded_mode_analysis` substitutes the result. -/
def rca_agent_first_attempt (cfg : TriageAgentConfig)
    (llm_result : Option Analysis) (state : TriageState) : TriageState :=
  match llm_result with
  | some analysis =>
    rca_confidence_gate cfg (rca_set_analysis analysis
      { state with degraded_mode := false, degraded_reason := none })
  | none =>
    let state := { state with
      degraded_mode := true
      degraded_reason := some "LLM timeout after 300s" }
    rca_confidence_gate cfg
      (rca_set_analysis (degraded_mode_analysis cfg state) state)

/-- `should_retry` (graph.py lines 22-30): the conditional edge after
the RCA node, returning the string label consumed by the workflow. -/
def should_retry (state : TriageState) : String :=
  if state.needs_more_evidence ∧ state.attempt_count < state.max_attempts then
    "retry"
  else
    "finalize"

/-- `increment_attempt` (graph.py lines 33-36). -/
def increment_attempt (state : TriageState) : TriageState :=
  { state with attempt_count := state.attempt_count + 1 }

/-- `finalize_report` (graph.py lines 39-53). -/
def finalize_report (state : TriageState) : TriageState :=
  { state with final_report := some (.fromGraph {
      incident_id := state.incident_id
      layer := state.layer
      root_nf := state.root_nf
      failure_mode := state.failure_mode
      confidence := state.confidence
      evidence_chain := state.evidence_chain
      infra_score := state.infra_score
      evidence_quality_score := state.evidence_quality_score
      degraded_mode := state.degraded_mode
      attempt_count := state.attempt_count }) }

lemma rca_set_analysis_attempt_count (a : Analysis) (s : TriageState) :
    (rca_set_analysis a s).attempt_count = s.attempt_count := rfl

lemma rca_set_analysis_max_attempts (a : Analysis) (s : TriageState) :
    (rca_set_analysis a s).max_attempts = s.max_attempts := rfl

lemma rca_confidence_gate_attempt_count (cfg : TriageAgentConfig)
    (s : TriageState) :
    (rca_confidence_gate cfg s).attempt_count = s.attempt_count := by
  simp only [rca_confidence_gate]
  split <;> split <;> rfl

lemma rca_confidence_gate_max_attempts (cfg : TriageAgentConfig)
    (s : TriageState) :
    (rca_confidence_gate cfg s).max_attempts = s.max_attempts := by
  simp only [rca_confidence_gate]
  split <;> split <;> rfl

lemma rca_agent_first_attempt_attempt_count (cfg : TriageAgentConfig)
    (llm : Option Analysis) (s : TriageState) :
    (rca_agent_first_attempt cfg llm s).attempt_count = s.attempt_count := by
  cases llm <;>
    simp only [rca_agent_first_attempt, rca_confidence_gate_attempt_count,
      rca_set_analysis_attempt_count]

lemma rca_agent_first_attempt_max_attempts (cfg : TriageAgentConfig)
    (llm : Option Analysis) (s : TriageState) :
    (rca_agent_first_attempt cfg llm s).max_attempts = s.max_attempts := by
  cases llm <;>
    simp only [rca_agent_first_attempt, rca_confidence_gate_max_attempts,
      rca_set_analysis_max_attempts]

/-- The workflow's retry loop (`create_workflow`, graph.py lines
97-112): run the RCA node, route through `should_retry`; on `"retry"`
pass through `increment_attempt` and loop back to the RCA node, on
`"finalize"` run `finalize_report` and stop.  The reasoning
collaborator's per-attempt behaviour is an oracle from the attempt
count to its outcome.  Returns the number of RCA decision-step
executions together with the terminal state. -/
def runLoop (oracle : ℕ → Option Analysis) (state : TriageState) :
    ℕ × TriageState :=
  let s1 := rca_agent_first_attempt defaultConfig (oracle state.attempt_count) state
  if h : should_retry s1 = "retry" then
    let r := runLoop oracle (increment_attempt s1)
    (r.1 + 1, r.2)
  else
    (1, finalize_report s1)
termination_by state.max_attempts - state.attempt_count
decreasing_by
  have hc : s1.needs_more_evidence ∧ s1.attempt_count < s1.max_attempts := by
    by_contra hcon
    rw [should_retry, if_neg hcon] at h
    exact absurd h (by decide)
  have h1 : s1.attempt_count = state.attempt_count :=
    rca_agent_first_attempt_attempt_count _ _ _
  have h2 : s1.max_attempts = state.max_attempts :=
    rca_agent_first_attempt_max_attempts _ _ _
  simp only [increment_attempt, h1, h2,
    rca_agent_first_attempt_attempt_count,
    rca_agent_first_attempt_max_attempts]
  omega

/-- A reference-procedure step: the `RefEvent` node matched by the
deviation query (`refStep.order`, `refStep.nf`, `refStep.action`). -/
structure RefEvent where
  order : ℤ
  nf : String
  action : String
  deriving DecidableEq

/-- A captured-trace event: the `TraceEvent` node created by
`ingest_captured_trace` and matched by the deviation query. -/
structure TraceEvent where
  order : ℤ
  action : String
  timestamp : ℤ
  nf : String
  deriving DecidableEq

/-- The row set produced by the deviation Cypher query before `ORDER BY
... LIMIT 1`: every (reference step, trace event) pair with equal
`order` whose observed action does not contain the expected action. -/
def deviation_matches (ref : List RefEvent) (trace : List TraceEvent) :
    List Deviation :=
  ref.flatMap (fun r =>
    (trace.filter (fun e =>
      e.order == r.order && !(strContains e.action r.action))).map
      (fun e => { deviation_point := r.order, expected := r.action,
                  actual := e.action, expected_nf := r.nf,
                  actual_nf := e.nf }))

/-- `ORDER BY refStep.order LIMIT 1`: an element of minimal
`deviation_point`, `none` on the empty row set. -/
def minByOrder : List Deviation → Option Deviation
  | [] => none
  | d :: ds =>
    match minByOrder ds with
    | none => some d
    | some m => if d.deviation_point ≤ m.deviation_point then some d else some m

/-- `detect_deviation` (memgraph/connection.py lines 127-154): the
first (numerically smallest shared order) deviation between a captured
trace and the named reference procedure, or `none`. -/
def detect_deviation (ref : List RefEvent) (trace : List TraceEvent) :
    Option Deviation :=
  minByOrder (deviation_matches ref trace)

/-- Outcome of one driver `session.run` call: rows, a transient
connectivity error (`ServiceUnavailable` / `TransientError`), or any
other exception. -/
inductive CypherOutcome (α : Type) where
  | ok (rows : List α)
  | transientErr
  | otherErr

/-- The exception leaving `execute_cypher` / `execute_cypher_write`:
the re-raised transient error, a non-transient exception, or the
`RuntimeError` raised when the loop ran zero attempts. -/
inductive CypherError where
  | transientErr
  | otherErr
  | runtimeErr
  deriving DecidableEq

/-- Result of a storage call together with the exponential-backoff
sleeps (`2**attempt`, in seconds) it performed. -/
structure CypherResult (α : Type) where
  result : Except CypherError (List α)
  sleeps : List ℕ

/-- The retry loop of `execute_cypher` (memgraph/connection.py lines
37-49): `rem` attempts remain, `attempt` is the current 0-based index.
Transient errors are remembered and retried, sleeping `2**attempt`
except after the last attempt; any other exception propagates at once;
an exhausted loop re-raises the last transient error. -/
def execute_cypher_loop {α : Type} (behavior : ℕ → CypherOutcome α) :
    ℕ → ℕ → Option CypherError → CypherResult α
  | 0, _, lastErr => ⟨.error (lastErr.getD .runtimeErr), []⟩
  | rem + 1, attempt, _ =>
    match behavior attempt with
    | .ok rows => ⟨.ok rows, []⟩
    | .transientErr =>
      if 0 < rem then
        let r := execute_cypher_loop behavior rem (attempt + 1)
          (some .transientErr)
        ⟨r.result, 2 ^ attempt :: r.sleeps⟩
      else
        execute_cypher_loop behavior rem (attempt + 1) (some .transientErr)
    | .otherErr => ⟨.error .otherErr, []⟩

/-- `execute_cypher` (memgraph/connection.py lines 28-49): read query
with retry logic, `retries` attempts in total. -/
def execute_cypher {α : Type} (behavior : ℕ → CypherOutcome α)
    (retries : ℕ) : CypherResult α :=
  execute_cypher_loop behavior retries 0 none

/-- `execute_cypher_write` (memgraph/connection.py lines 51-58): a
single `session.run` with no retry loop; any exception propagates. -/
def execute_cypher_write {α : Type} (behavior : ℕ → CypherOutcome α) :
    Except CypherError Unit :=
  match behavior 0 with
  | .ok _ => .ok ()
  | .transientErr => .error .transientErr
  | .otherErr => .error .otherErr

/-- `ingest_captured_trace` (memgraph/connection.py lines 100-125):
issues its CREATE statement through `execute_cypher_write`. -/
def ingest_captured_trace {α : Type} (behavior : ℕ → CypherOutcome α) :
    Except CypherError Unit :=
  execute_cypher_write behavior

/-- `cleanup_incident_traces` (memgraph/connection.py lines 156-162):
issues its DETACH DELETE through `execute_cypher_write`. -/
def cleanup_incident_traces {α : Type} (behavior : ℕ → CypherOutcome α) :
    Except CypherError Unit :=
  execute_cypher_write behavior

/-- The storage-layer call of `detect_deviation`: runs the deviation
query through `execute_cypher` (with its retry logic) and returns
`results[0] if results else None`. -/
def detect_deviation_call (behavior : ℕ → CypherOutcome Deviation)
    (retries : ℕ) : Except CypherError (Option Deviation) × List ℕ :=
  let r := execute_cypher behavior retries
  (r.result.map List.head?, r.sleeps)

/-- Outcome of one backend query issued by an evidence collector:
records, an `MCPTimeoutError`, an `MCPQueryError`, or any other
exception (e.g. a JSON decoding error on a malformed payload). -/
inductive FetchOutcome (α : Type) where
  | ok (records : List α)
  | mcpTimeout
  | mcpQueryErr
  | otherExc

/-- One normalized log record (`MCPClient.query_loki` /
`_parse_loki_response` output shape). -/
structure LogRecord where
  timestamp : ℤ
  message : String
  labels : List (String × String)
  pod : String
  level : String
  deriving DecidableEq

/-- `labels.get(key, "")` on a label dict. -/
def lookupLabel (labels : List (String × String)) (k : String) : String :=
  ((labels.find? (fun p => p.1 == k)).map (fun p => p.2)).getD ""

/-- The pod-field normalization of `_fetch_loki_logs` (logs_agent.py
lines 193-197): an empty `pod` falls back to the `k8s_pod_name`
label. -/
def normalize_pod (e : LogRecord) : LogRecord :=
  if e.pod = "" then { e with pod := lookupLabel e.labels "k8s_pod_name" }
  else e

/-- The query loop of `_fetch_loki_logs` (logs_agent.py lines 187-191):
every query runs through the MCP client with NO per-query exception
handling, so the first failing query aborts the whole batch (the
already-collected sibling records are lost with it). -/
def fetch_loki_logs_go (backend : String → FetchOutcome LogRecord) :
    List String → Except Unit (List LogRecord)
  | [] => .ok []
  | q :: qs =>
    match backend q with
    | .ok logs =>
      match fetch_loki_logs_go backend qs with
      | .ok rest => .ok (logs ++ rest)
      | .error e => .error e
    | _ => .error ()

/-- `_fetch_loki_logs` (logs_agent.py lines 166-199): the MCP path,
query loop followed by pod normalization. -/
def fetch_loki_logs (backend : String → FetchOutcome LogRecord)
    (queries : List String) : Except Unit (List LogRecord) :=
  (fetch_loki_logs_go backend queries).map (fun l => l.map normalize_pod)

/-- `_fetch_loki_logs_direct` (logs_agent.py lines 202-247): the direct
Loki HTTP path; every query is wrapped in its own `try`/`except` chain
ending in a bare `except Exception`, so any failure contributes zero
records for that query only. -/
def fetch_loki_logs_direct (backend : String → FetchOutcome LogRecord)
    (queries : List String) : List LogRecord :=
  queries.foldl (fun acc q =>
    match backend q with
    | .ok logs => acc ++ logs
    | _ => acc) []

/-- `_fetch_prometheus_metrics` (metrics_agent.py lines 100-130): each
query has a `try`/`except` catching `MCPTimeoutError` and
`MCPQueryError` only; any other exception propagates and aborts the
batch. -/
def fetch_prometheus_metrics (backend : String → FetchOutcome PromEntry) :
    List String → Except Unit (List PromEntry)
  | [] => .ok []
  | q :: qs =>
    match backend q with
    | .ok recs => (fetch_prometheus_metrics backend qs).map (fun rest => recs ++ rest)
    | .mcpTimeout => fetch_prometheus_metrics backend qs
    | .mcpQueryErr => fetch_prometheus_metrics backend qs
    | .otherExc => .error ()

/-- The fetch step of `logs_agent` (logs_agent.py lines 282-304): path
already selected by the health probe; each path's invocation is wrapped
in a `try`/`except` that degrades to an empty log list, so no exception
reaches the workflow. -/
def logs_agent_fetch (use_mcp : Bool)
    (backend : String → FetchOutcome LogRecord)
    (queries : List String) : List LogRecord :=
  if use_mcp then
    match fetch_loki_logs backend queries with
    | .ok l => l
    | .error _ => []
  else
    fetch_loki_logs_direct backend queries

/-- The fetch step of `metrics_agent` (metrics_agent.py lines 143-153):
a batch-aborting exception is caught and degrades to empty metrics. -/
def metrics_agent_fetch (backend : String → FetchOutcome PromEntry)
    (queries : List String) : List PromEntry :=
  match fetch_prometheus_metrics backend queries with
  | .ok l => l
  | .error _ => []

/-- Records contributed by one query outcome: its records on success,
none on any failure. -/
def okRecords {α : Type} : FetchOutcome α → List α
  | .ok r => r
  | _ => []

/-- Whether a query outcome is a success. -/
def isOkOutcome {α : Type} : FetchOutcome α → Bool
  | .ok _ => true
  | _ => false

/-! ## Theorems -/

/-- The spec's evidence-quality lookup table, stated directly over the
three presence booleans (metrics, logs, traces) with the documented
default scores.  This definition follows the spec's words, to be
compared against `compute_evidence_quality` as embedded from the
source. -/
def evidence_quality_table : Bool → Bool → Bool → ℚ
  | true, true, true => 0.95
  | true, false, true => 0.85
  | false, true, true => 0.85
  | true, true, false => 0.80
  | false, false, true => 0.50
  | true, false, false => 0.40
  | false, true, false => 0.35
  | false, false, false => 0.10

lemma eq_score_eq_table (s : TriageState) :
    (compute_evidence_quality defaultConfig s).evidence_quality_score =
      evidence_quality_table (pyTruthy s.metrics) (pyTruthy s.logs)
        s.traces_ready := by
  rcases hm : pyTruthy s.metrics <;> rcases hl : pyTruthy s.logs <;>
    rcases ht : s.traces_ready <;>
      simp [compute_evidence_quality, evidence_quality_table, hm, hl, ht,
        defaultConfig] <;> norm_num

/-- A fully initialized `TriageState` with no collected evidence, as
`get_initial_state` produces it (graph.py lines 115-154). -/
def emptyState : TriageState where
  incident_id := "inc-0001"
  procedure_name := none
  infra_checked := false
  infra_score := 0
  infra_findings := none
  metrics := none
  logs := none
  traces_ready := false
  trace_deviations := none
  evidence_quality_score := 0
  root_nf := none
  failure_mode := none
  layer := ""
  confidence := 0
  evidence_chain := []
  degraded_mode := false
  degraded_reason := none
  attempt_count := 1
  max_attempts := 2
  needs_more_evidence := false
  evidence_gaps := []
  final_report := none

/-- C5: for every combination of the three evidence-presence booleans,
`compute_evidence_quality` writes the fixed lookup value of that
combination; the seven configured values are strictly ordered
all-three > traces-plus-one > metrics-and-logs > traces > metrics >
logs > none; the lookup is monotonically non-decreasing when a source
is added to a fixed composition; and an empty container scores
identically to an absent one. -/
theorem compute_evidence_quality_matches_table :
    (∀ s : TriageState,
      (compute_evidence_quality defaultConfig s).evidence_quality_score =
        evidence_quality_table (pyTruthy s.metrics) (pyTruthy s.logs)
          s.traces_ready)
    ∧ (defaultConfig.eq_score_traces_plus_one < defaultConfig.eq_score_all_sources
      ∧ defaultConfig.eq_score_metrics_logs < defaultConfig.eq_score_traces_plus_one
      ∧ defaultConfig.eq_score_traces_only < defaultConfig.eq_score_metrics_logs
      ∧ defaultConfig.eq_score_metrics_only < defaultConfig.eq_score_traces_only
      ∧ defaultConfig.eq_score_logs_only < defaultConfig.eq_score_metrics_only
      ∧ defaultConfig.eq_score_no_evidence < defaultConfig.eq_score_logs_only)
    ∧ (∀ m l t : Bool,
      evidence_quality_table false l t ≤ evidence_quality_table true l t
      ∧ evidence_quality_table m false t ≤ evidence_quality_table m true t
      ∧ evidence_quality_table m l false ≤ evidence_quality_table m l true)
    ∧ (∀ s : TriageState,
      (compute_evidence_quality defaultConfig
          { s with metrics := some [] }).evidence_quality_score =
        (compute_evidence_quality defaultConfig
          { s with metrics := none }).evidence_quality_score
      ∧ (compute_evidence_quality defaultConfig
          { s with logs := some [] }).evidence_quality_score =
        (compute_evidence_quality defaultConfig
          { s with logs := none }).evidence_quality_score) := by
  refine ⟨fun s => eq_score_eq_table s, by norm_num [defaultConfig],
    ?_, fun s => ⟨?_, ?_⟩⟩
  · intro m l t
    refine ⟨?_, ?_, ?_⟩ <;> rcases m <;> rcases l <;> rcases t <;>
      norm_num [evidence_quality_table]
  · rw [eq_score_eq_table, eq_score_eq_table]
    simp [pyTruthy]
  · rw [eq_score_eq_table, eq_score_eq_table]
    simp [pyTruthy]

/-- C10: the written evidence-quality score is always strictly
positive and at most 1; it is always one of the seven configured
lookup values clamped at 1; and with no evidence at all it is the
no-evidence sentinel 0.10, never 0. -/
theorem compute_evidence_quality_positive :
    ∀ s : TriageState,
      0 < (compute_evidence_quality defaultConfig s).evidence_quality_score
      ∧ (compute_evidence_quality defaultConfig s).evidence_quality_score ≤ 1
      ∧ (compute_evidence_quality defaultConfig s).evidence_quality_score ∈
        ([defaultConfig.eq_score_all_sources,
          defaultConfig.eq_score_traces_plus_one,
          defaultConfig.eq_score_metrics_logs,
          defaultConfig.eq_score_traces_only,
          defaultConfig.eq_score_metrics_only,
          defaultConfig.eq_score_logs_only,
          defaultConfig.eq_score_no_evidence].map (fun q => min q 1))
      ∧ ((pyTruthy s.metrics = false ∧ pyTruthy s.logs = false ∧
          s.traces_ready = false) →
        (compute_evidence_quality defaultConfig s).evidence_quality_score
          = 0.10) := by
  intro s
  rw [eq_score_eq_table]
  rcases hm : pyTruthy s.metrics <;> rcases hl : pyTruthy s.logs <;>
    rcases ht : s.traces_ready <;>
      refine ⟨by norm_num [evidence_quality_table],
        by norm_num [evidence_quality_table], ?_, fun h => by
          simp only [evidence_quality_table] <;> simp_all⟩ <;>
        simp [evidence_quality_table, defaultConfig] <;> norm_num [min_def]

/-- Witness for C10 at the initial (no evidence) state. -/
theorem compute_evidence_quality_positive_witness :
    (compute_evidence_quality defaultConfig emptyState).evidence_quality_score
      = 0.10 :=
  (compute_evidence_quality_positive emptyState).2.2.2 ⟨rfl, rfl, rfl⟩

lemma restart_factor_bounds (m : InfraMetrics) :
    0 ≤ restart_factor defaultConfig m ∧ restart_factor defaultConfig m ≤ 1 := by
  simp only [restart_factor]
  split_ifs <;> norm_num [defaultConfig]

lemma oom_factor_bounds (m : InfraMetrics) :
    0 ≤ oom_factor m ∧ oom_factor m ≤ 1 := by
  simp only [oom_factor]
  split_ifs <;> norm_num

lemma resource_factor_bounds (m : InfraMetrics) :
    0 ≤ resource_factor defaultConfig m ∧ resource_factor defaultConfig m ≤ 1 := by
  simp only [resource_factor]
  split_ifs <;> norm_num [defaultConfig]

lemma status_foldl_bounds (p : ℚ) (hp0 : 0 ≤ p) (hp1 : p ≤ 1) :
    ∀ (l : List StatusEntry) (acc : ℚ), 0 ≤ acc → acc ≤ 1 →
      0 ≤ l.foldl (fun acc e =>
        if e.phase = "Failed" ∨ e.phase = "Unknown" then max acc 1.0
        else if e.phase = "Pending" then max acc p
        else acc) acc ∧
      l.foldl (fun acc e =>
        if e.phase = "Failed" ∨ e.phase = "Unknown" then max acc 1.0
        else if e.phase = "Pending" then max acc p
        else acc) acc ≤ 1 := by
  intro l
  induction l with
  | nil => intro acc h0 h1; simpa using ⟨h0, h1⟩
  | cons e t ih =>
    intro acc h0 h1
    simp only [List.foldl_cons]
    split_ifs with h h2
    · exact ih _ (le_max_of_le_right (by norm_num)) (max_le h1 (by norm_num))
    · exact ih _ (le_max_of_le_right hp0) (max_le h1 hp1)
    · exact ih _ h0 h1

lemma status_factor_bounds (m : InfraMetrics) :
    0 ≤ status_factor defaultConfig m ∧ status_factor defaultConfig m ≤ 1 := by
  simp only [status_factor]
  exact status_foldl_bounds defaultConfig.pod_pending_factor
    (by norm_num [defaultConfig]) (by norm_num [defaultConfig]) _ 0.0
    (by norm_num) (by norm_num)

/-- C6: for every metrics input, including any combination of missing
categories, the infrastructure score lies in `[0, 1]`; a missing
category behaves exactly like an empty one (the healthy branch of its
factor, which is worth `0`); and with everything missing the score is
`0`.  Totality of the embedded function models the "never raise"
guarantee of the `.get(key, [])` accesses. -/
theorem compute_infrastructure_score_bounds :
    (∀ m : InfraMetrics,
      0 ≤ compute_infrastructure_score defaultConfig m ∧
      compute_infrastructure_score defaultConfig m ≤ 1)
    ∧ (∀ m : InfraMetrics,
      compute_infrastructure_score defaultConfig { m with pod_restarts := none } =
        compute_infrastructure_score defaultConfig { m with pod_restarts := some [] }
      ∧ compute_infrastructure_score defaultConfig { m with oom_kills := none } =
        compute_infrastructure_score defaultConfig { m with oom_kills := some [] }
      ∧ compute_infrastructure_score defaultConfig { m with pod_status := none } =
        compute_infrastructure_score defaultConfig { m with pod_status := some [] }
      ∧ compute_infrastructure_score defaultConfig { m with memory_percent := none } =
        compute_infrastructure_score defaultConfig { m with memory_percent := some [] }
      ∧ compute_infrastructure_score defaultConfig { m with cpu_usage := none } =
        compute_infrastructure_score defaultConfig { m with cpu_usage := some [] })
    ∧ compute_infrastructure_score defaultConfig
        ⟨none, none, none, none, none⟩ = 0 := by
  refine ⟨fun m => ?_, fun m => ⟨rfl, rfl, rfl, rfl, rfl⟩, by
    norm_num [compute_infrastructure_score, restart_factor, oom_factor,
      status_factor, resource_factor, pyMax, defaultConfig]⟩
  obtain ⟨h1a, h1b⟩ := restart_factor_bounds m
  obtain ⟨h2a, h2b⟩ := oom_factor_bounds m
  obtain ⟨h3a, h3b⟩ := status_factor_bounds m
  obtain ⟨h4a, h4b⟩ := resource_factor_bounds m
  constructor
  · refine le_min ?_ (by norm_num)
    show (0:ℚ) ≤ 0.35 * restart_factor defaultConfig m
      + 0.25 * oom_factor m + 0.20 * status_factor defaultConfig m
      + 0.20 * resource_factor defaultConfig m
    nlinarith
  · exact le_trans (min_le_right _ _) (by norm_num)

/-- C7: after the RCA decision step obtains a result, the confidence
gate compares the recorded confidence against the default minimum
(0.70), replaced by the relaxed, strictly lower minimum (0.65) when the
evidence-quality score is at or above the high-evidence threshold
(0.80); at or above the threshold it clears `needs_more_evidence` and
writes the final report immediately, below it it sets
`needs_more_evidence` and records the evidence-gap list. -/
theorem rca_confidence_gate_spec :
    (∀ s : TriageState,
      (s.confidence ≥ (if s.evidence_quality_score ≥
            defaultConfig.high_evidence_threshold then
          defaultConfig.min_confidence_relaxed
        else defaultConfig.min_confidence_default) →
        (rca_confidence_gate defaultConfig s).needs_more_evidence = false ∧
        (rca_confidence_gate defaultConfig s).final_report =
          some (.fromRca (generate_final_report s)))
      ∧ (s.confidence < (if s.evidence_quality_score ≥
            defaultConfig.high_evidence_threshold then
          defaultConfig.min_confidence_relaxed
        else defaultConfig.min_confidence_default) →
        (rca_confidence_gate defaultConfig s).needs_more_evidence = true ∧
        (rca_confidence_gate defaultConfig s).evidence_gaps =
          identify_evidence_gaps defaultConfig s ∧
        (rca_confidence_gate defaultConfig s).final_report = s.final_report))
    ∧ defaultConfig.min_confidence_relaxed < defaultConfig.min_confidence_default := by
  refine ⟨fun s => ⟨fun h => ?_, fun h => ?_⟩, by norm_num [defaultConfig]⟩
  · simp only [rca_confidence_gate]
    rw [if_pos h]
    exact ⟨rfl, rfl⟩
  · simp only [rca_confidence_gate]
    rw [if_neg (not_le.mpr h)]
    exact ⟨rfl, rfl, rfl⟩

/-- A state whose recorded confidence clears the default gate. -/
def confidentState : TriageState := { emptyState with confidence := 0.9 }

/-- Witness for C7: with evidence quality 0 the default threshold 0.70
applies, confidence 0.9 clears it, and the final report is written. -/
theorem rca_confidence_gate_spec_witness :
    (rca_confidence_gate defaultConfig confidentState).needs_more_evidence = false ∧
    (rca_confidence_gate defaultConfig confidentState).final_report =
      some (.fromRca (generate_final_report confidentState)) :=
  (rca_confidence_gate_spec.1 confidentState).1
    (by norm_num [confidentState, emptyState, defaultConfig])

lemma identify_evidence_gaps_nonempty (cfg : TriageAgentConfig)
    (s : TriageState)
    (h : s.confidence < cfg.evidence_gap_confidence_threshold) :
    identify_evidence_gaps cfg s ≠ [] := by
  simp only [identify_evidence_gaps]
  by_cases he : (identify_specific_gaps cfg s).isEmpty
  · rw [if_pos ⟨he, h⟩]
    simp
  · rw [if_neg (fun hc => he hc.1)]
    simpa [List.isEmpty_iff] using he

lemma rca_confidence_gate_gaps_nonempty (s : TriageState)
    (h : (rca_confidence_gate defaultConfig s).needs_more_evidence = true) :
    (rca_confidence_gate defaultConfig s).evidence_gaps ≠ [] := by
  simp only [rca_confidence_gate] at h ⊢
  split_ifs at h ⊢ with hA hconf hconf2
  · exact identify_evidence_gaps_nonempty _ _
      (lt_of_lt_of_le (not_le.mp hconf)
        (by norm_num [defaultConfig] : defaultConfig.min_confidence_relaxed ≤
          defaultConfig.evidence_gap_confidence_threshold))
  · exact identify_evidence_gaps_nonempty _ _
      (lt_of_lt_of_le (not_le.mp hconf2)
        (by norm_num [defaultConfig] : defaultConfig.min_confidence_default ≤
          defaultConfig.evidence_gap_confidence_threshold))

/-- C9: under the default configuration, whenever the RCA decision step
sets `needs_more_evidence`, the recorded evidence-gap list is
non-empty — the generic temporal-analysis and cross-correlation gaps
are appended exactly when no specific gap was found at a confidence
below the gap threshold, and `needs_more_evidence` only arises below a
minimum that does not exceed that threshold. -/
theorem rca_needs_more_evidence_has_gaps :
    ∀ (llm_result : Option Analysis) (s : TriageState),
      (rca_agent_first_attempt defaultConfig llm_result s).needs_more_evidence = true →
      (rca_agent_first_attempt defaultConfig llm_result s).evidence_gaps ≠ [] := by
  intro llm_result s
  cases llm_result with
  | some a =>
    simp only [rca_agent_first_attempt]
    exact rca_confidence_gate_gaps_nonempty _
  | none =>
    simp only [rca_agent_first_attempt]
    exact rca_confidence_gate_gaps_nonempty _

/-- Infra metrics containing one OOM-kill event, as the OOM PromQL
query reports it. -/
def oomMetrics : InfraMetrics where
  pod_restarts := some []
  oom_kills := some [{ pod := "amf-5d8f", container := "amf", value := 2 }]
  pod_status := some [{ pod := "amf-5d8f", phase := "Running" }]
  memory_percent := some []
  cpu_usage := some []

/-- The findings the infra agent extracts from `oomMetrics`. -/
def oomFindings : InfraFindings := infra_agent_findings defaultConfig oomMetrics

/-- A state at the RCA step with infra score 0.85 and the
extraction-produced OOM findings, as in the spec's Example 5. -/
def oomTimeoutState : TriageState :=
  { emptyState with infra_score := 0.85, infra_findings := some oomFindings }

set_option maxRecDepth 8000

/-- C8: the spec says a reasoning timeout at infra score 0.85 with an
OOM event in the findings yields the specific failure mode
`"OOMKilled"` at the specific degraded confidence (0.60).  The code
disagrees: `extract_critical_events` renders OOM events with the type
tag `"oom_kill"` (and `extract_oom_events` under the key
`"oom_kills"`), so the literal substring `"OOMKilled"` that
`degraded_mode_analysis` searches for in `str(infra_findings)` never
occurs in extraction-produced findings, and the degraded result is the
generic `"infrastructure_issue"` at the generic confidence 0.50.  This
theorem evaluates the embedded code at that failing input: the OOM
event is present in the findings, the rendering lacks `"OOMKilled"`,
and the result is generic. -/
theorem degraded_mode_oom_yields_generic :
    oomFindings.critical_events = [.oomKill "amf-5d8f" "amf" 2]
    ∧ oomFindings.oom_kills = [("amf-5d8f", 2)]
    ∧ strContains (pyStrFindings oomFindings) "OOMKilled" = false
    ∧ (rca_agent_first_attempt defaultConfig none oomTimeoutState).degraded_mode = true
    ∧ (rca_agent_first_attempt defaultConfig none oomTimeoutState).layer =
        "infrastructure"
    ∧ (rca_agent_first_attempt defaultConfig none oomTimeoutState).failure_mode =
        some "infrastructure_issue"
    ∧ (rca_agent_first_attempt defaultConfig none oomTimeoutState).confidence =
        defaultConfig.degraded_conf_infra_generic
    ∧ defaultConfig.degraded_conf_infra_generic ≠
        defaultConfig.degraded_conf_infra_specific := by
  have hoom : strContains (pyStrFindings oomFindings) "OOMKilled" = false := by
    decide
  have hcrash : strContains (pyStrFindings oomFindings) "CrashLoop" = false := by
    decide
  refine ⟨by decide, by decide, hoom, ?_, ?_, ?_, ?_, by norm_num [defaultConfig]⟩ <;>
    norm_num [rca_agent_first_attempt, degraded_mode_analysis, rca_set_analysis,
      rca_confidence_gate, oomTimeoutState, emptyState, hoom, hcrash, defaultConfig]

lemma should_retry_finalize_report (t : TriageState) :
    should_retry (finalize_report t) = should_retry t := rfl

lemma runLoop_bounded (oracle : ℕ → Option Analysis) :
    ∀ (n : ℕ) (s : TriageState), s.max_attempts - s.attempt_count ≤ n →
      (runLoop oracle s).1 ≤ s.max_attempts - s.attempt_count + 1 ∧
      should_retry (runLoop oracle s).2 = "finalize" := by
  intro n
  induction n with
  | zero =>
    intro s hs
    rw [runLoop]
    have hfin : should_retry
        (rca_agent_first_attempt defaultConfig (oracle s.attempt_count) s) =
        "finalize" := by
      rw [should_retry, if_neg]
      rintro ⟨-, hlt⟩
      rw [rca_agent_first_attempt_attempt_count,
        rca_agent_first_attempt_max_attempts] at hlt
      omega
    rw [dif_neg (by rw [hfin]; decide)]
    exact ⟨by omega, by rw [should_retry_finalize_report]; exact hfin⟩
  | succ n ih =>
    intro s hs
    rw [runLoop]
    by_cases h : should_retry
        (rca_agent_first_attempt defaultConfig (oracle s.attempt_count) s) = "retry"
    · rw [dif_pos h]
      have hcond : (rca_agent_first_attempt defaultConfig (oracle s.attempt_count) s).needs_more_evidence
          ∧ (rca_agent_first_attempt defaultConfig (oracle s.attempt_count) s).attempt_count <
            (rca_agent_first_attempt defaultConfig (oracle s.attempt_count) s).max_attempts := by
        by_contra hc
        rw [should_retry, if_neg hc] at h
        exact absurd h (by decide)
      have hlt : s.attempt_count < s.max_attempts := by
        have h2 := hcond.2
        rwa [rca_agent_first_attempt_attempt_count,
          rca_agent_first_attempt_max_attempts] at h2
      have hinc : (increment_attempt
            (rca_agent_first_attempt defaultConfig (oracle s.attempt_count) s)).max_attempts -
          (increment_attempt
            (rca_agent_first_attempt defaultConfig (oracle s.attempt_count) s)).attempt_count ≤ n := by
        simp only [increment_attempt, rca_agent_first_attempt_attempt_count,
          rca_agent_first_attempt_max_attempts]
        omega
      obtain ⟨ih1, ih2⟩ := ih _ hinc
      have hm : (increment_attempt
          (rca_agent_first_attempt defaultConfig (oracle s.attempt_count) s)).max_attempts
          = s.max_attempts := by
        simp [increment_attempt, rca_agent_first_attempt_max_attempts]
      have ha : (increment_attempt
          (rca_agent_first_attempt defaultConfig (oracle s.attempt_count) s)).attempt_count
          = s.attempt_count + 1 := by
        simp [increment_attempt, rca_agent_first_attempt_attempt_count]
      rw [hm, ha] at ih1
      constructor
      · show (runLoop oracle (increment_attempt
          (rca_agent_first_attempt defaultConfig (oracle s.attempt_count) s))).1 + 1 ≤
          s.max_attempts - s.attempt_count + 1
        omega
      · show should_retry (runLoop oracle (increment_attempt
          (rca_agent_first_attempt defaultConfig (oracle s.attempt_count) s))).2 = "finalize"
        exact ih2
    · rw [dif_neg h]
      have hfin : should_retry
          (rca_agent_first_attempt defaultConfig (oracle s.attempt_count) s) =
          "finalize" := by
        rw [should_retry] at h ⊢
        split_ifs at h ⊢ with hc
        · exact absurd rfl h
        · rfl
      exact ⟨by omega, by rw [should_retry_finalize_report]; exact hfin⟩

/-- C1: for a run with `max_attempts = N ≥ 1` starting at
`attempt_count = 1`, the loop built from the RCA node, `should_retry`
and `increment_attempt` executes the decision step at most `N` times
and its terminal state routes to `finalize`, for every behaviour of the
reasoning collaborator; `should_retry` returns `"retry"` iff
`needs_more_evidence ∧ attempt_count < max_attempts` and `"finalize"`
otherwise, and `increment_attempt` raises `attempt_count` by exactly
one. -/
theorem triage_retry_loop_terminates :
    (∀ (oracle : ℕ → Option Analysis) (s : TriageState) (N : ℕ),
      s.max_attempts = N → s.attempt_count = 1 → 1 ≤ N →
      (runLoop oracle s).1 ≤ N ∧
      should_retry (runLoop oracle s).2 = "finalize")
    ∧ (∀ t : TriageState,
      (should_retry t = "retry" ↔
        t.needs_more_evidence = true ∧ t.attempt_count < t.max_attempts)
      ∧ (should_retry t = "finalize" ↔
        ¬(t.needs_more_evidence = true ∧ t.attempt_count < t.max_attempts)))
    ∧ (∀ t : TriageState,
      (increment_attempt t).attempt_count = t.attempt_count + 1) := by
  refine ⟨fun oracle s N hN h1 hge => ?_, fun t => ⟨?_, ?_⟩, fun t => rfl⟩
  · obtain ⟨hc, hf⟩ :=
      runLoop_bounded oracle (s.max_attempts - s.attempt_count) s le_rfl
    rw [hN, h1] at hc
    exact ⟨by omega, hf⟩
  · rw [should_retry]
    split_ifs with hc
    · exact iff_of_true rfl hc
    · exact iff_of_false (by decide) hc
  · rw [should_retry]
    split_ifs with hc
    · exact iff_of_false (by decide) (not_not_intro hc)
    · exact iff_of_true rfl hc

/-- Witness for C1: with the reasoning call timing out on every attempt
(constant low degraded confidence), a run capped at 2 attempts executes
the decision step at most twice and terminates in `finalize`. -/
theorem triage_retry_loop_terminates_witness :
    (runLoop (fun _ => none) emptyState).1 ≤ 2 ∧
    should_retry (runLoop (fun _ => none) emptyState).2 = "finalize" :=
  triage_retry_loop_terminates.1 (fun _ => none) emptyState 2 rfl rfl
    (by decide)

/-- A parsed LLM analysis whose confidence is below every gate. -/
def lowConfidenceAnalysis : Analysis where
  root_nf := "amf"
  failure_mode := "timeout"
  confidence := 0.3
  evidence_chain := some []
  layer := some "application"

/-- Witness for C9: a 0.3-confidence result on the no-evidence state
sets `needs_more_evidence` and records a non-empty gap list. -/
theorem rca_needs_more_evidence_has_gaps_witness :
    (rca_agent_first_attempt defaultConfig (some lowConfidenceAnalysis)
      emptyState).evidence_gaps ≠ [] :=
  rca_needs_more_evidence_has_gaps (some lowConfidenceAnalysis) emptyState
    (by norm_num [rca_agent_first_attempt, rca_confidence_gate,
      rca_set_analysis, lowConfidenceAnalysis, emptyState, defaultConfig])

lemma mem_deviation_matches (ref : List RefEvent) (trace : List TraceEvent)
    (x : Deviation) :
    x ∈ deviation_matches ref trace ↔
      ∃ r ∈ ref, ∃ e ∈ trace, e.order = r.order ∧
        strContains e.action r.action = false ∧
        x = ⟨r.order, r.action, e.action, r.nf, e.nf⟩ := by
  simp only [deviation_matches, List.mem_flatMap, List.mem_map,
    List.mem_filter, Bool.and_eq_true, beq_iff_eq, Bool.not_eq_true']
  constructor
  · rintro ⟨r, hr, e, ⟨he, hord, hcon⟩, rfl⟩
    exact ⟨r, hr, e, he, hord, hcon, rfl⟩
  · rintro ⟨r, hr, e, he, hord, hcon, rfl⟩
    exact ⟨r, hr, e, ⟨he, hord, hcon⟩, rfl⟩

lemma minByOrder_eq_none_iff (l : List Deviation) :
    minByOrder l = none ↔ l = [] := by
  cases l with
  | nil => simp [minByOrder]
  | cons d ds =>
    cases h : minByOrder ds
    · simp [minByOrder, h]
    · simp only [minByOrder, h]
      split <;> simp

lemma minByOrder_mem : ∀ {l : List Deviation} {d : Deviation},
    minByOrder l = some d → d ∈ l := by
  intro l
  induction l with
  | nil => intro d h; simp [minByOrder] at h
  | cons a t ih =>
    intro d h
    rw [minByOrder] at h
    cases ht : minByOrder t with
    | none =>
      rw [ht] at h
      simp only [Option.some.injEq] at h
      exact h ▸ List.mem_cons_self a t
    | some m =>
      rw [ht] at h
      dsimp only at h
      by_cases hle : a.deviation_point ≤ m.deviation_point
      · rw [if_pos hle] at h
        simp only [Option.some.injEq] at h
        exact h ▸ List.mem_cons_self a t
      · rw [if_neg hle] at h
        simp only [Option.some.injEq] at h
        exact List.mem_cons_of_mem a (h ▸ ih ht)

lemma minByOrder_le : ∀ {l : List Deviation} {d : Deviation},
    minByOrder l = some d →
    ∀ x ∈ l, d.deviation_point ≤ x.deviation_point := by
  intro l
  induction l with
  | nil => intro d h; simp [minByOrder] at h
  | cons a t ih =>
    intro d h x hx
    rw [minByOrder] at h
    cases ht : minByOrder t with
    | none =>
      rw [ht] at h
      simp only [Option.some.injEq] at h
      rcases List.mem_cons.mp hx with hxa | hxt
      · exact h ▸ hxa ▸ le_rfl
      · exact absurd (minByOrder_eq_none_iff t |>.mp ht ▸ hxt) (by simp)
    | some m =>
      rw [ht] at h
      dsimp only at h
      rcases List.mem_cons.mp hx with hxa | hxt
      · by_cases hle : a.deviation_point ≤ m.deviation_point
        · rw [if_pos hle] at h
          simp only [Option.some.injEq] at h
          exact h ▸ hxa ▸ le_rfl
        · rw [if_neg hle] at h
          simp only [Option.some.injEq] at h
          subst h
          exact hxa ▸ le_of_lt (lt_of_not_le hle)
      · by_cases hle : a.deviation_point ≤ m.deviation_point
        · rw [if_pos hle] at h
          simp only [Option.some.injEq] at h
          exact h ▸ le_trans hle (ih ht x hxt)
        · rw [if_neg hle] at h
          simp only [Option.some.injEq] at h
          exact h ▸ ih ht x hxt

/-- C2: `detect_deviation` returns `none` exactly when, at every order
value shared between the captured trace and the reference procedure,
the observed action text contains the expected action text; and every
returned deviation is built from a shared-order mismatching pair,
carries the expected and actual action and participant of that pair,
and sits at the numerically smallest mismatching shared order. -/
theorem detect_deviation_correct :
    ∀ (ref : List RefEvent) (trace : List TraceEvent),
    (detect_deviation ref trace = none ↔
      ∀ r ∈ ref, ∀ e ∈ trace, e.order = r.order →
        strContains e.action r.action = true)
    ∧ (∀ d, detect_deviation ref trace = some d →
      (∃ r ∈ ref, ∃ e ∈ trace, e.order = r.order ∧
        strContains e.action r.action = false ∧
        d = ⟨r.order, r.action, e.action, r.nf, e.nf⟩)
      ∧ (∀ r ∈ ref, ∀ e ∈ trace, e.order = r.order →
        strContains e.action r.action = false →
        d.deviation_point ≤ r.order)) := by
  intro ref trace
  constructor
  · rw [detect_deviation, minByOrder_eq_none_iff,
      List.eq_nil_iff_forall_not_mem]
    constructor
    · intro h r hr e he hord
      cases hc : strContains e.action r.action with
      | false =>
        exact absurd ((mem_deviation_matches ref trace _).mpr
          ⟨r, hr, e, he, hord, hc, rfl⟩) (h _)
      | true => rfl
    · intro h x hx
      obtain ⟨r, hr, e, he, hord, hcon, rfl⟩ :=
        (mem_deviation_matches ref trace x).mp hx
      rw [h r hr e he hord] at hcon
      exact absurd hcon (by simp)
  · intro d hd
    rw [detect_deviation] at hd
    constructor
    · exact (mem_deviation_matches ref trace d).mp (minByOrder_mem hd)
    · intro r hr e he hord hcon
      exact minByOrder_le hd _ ((mem_deviation_matches ref trace _).mpr
        ⟨r, hr, e, he, hord, hcon, rfl⟩)

/-- A two-step reference procedure. -/
def refProcWitness : List RefEvent :=
  [⟨9, "AUSF", "Authentication"⟩, ⟨10, "AMF", "Registration complete"⟩]

/-- A captured trace mismatching the step at order 9. -/
def traceWitness : List TraceEvent :=
  [⟨9, "Registration Reject - SUCI decryption error", 100, "AUSF"⟩]

/-- The deviation the detector reports on the witness pair. -/
def devWitness : Deviation :=
  ⟨9, "Authentication", "Registration Reject - SUCI decryption error",
    "AUSF", "AUSF"⟩

/-- Witness for C2: on a concrete mismatching trace the returned
deviation is a shared-order mismatch record and is minimal. -/
theorem detect_deviation_correct_witness :
    (∃ r ∈ refProcWitness, ∃ e ∈ traceWitness, e.order = r.order ∧
      strContains e.action r.action = false ∧
      devWitness = ⟨r.order, r.action, e.action, r.nf, e.nf⟩)
    ∧ devWitness.deviation_point ≤ 9 := by
  have h := (detect_deviation_correct refProcWitness traceWitness).2
    devWitness (by decide)
  exact ⟨h.1, h.2 ⟨9, "AUSF", "Authentication"⟩ (by decide)
    ⟨9, "Registration Reject - SUCI decryption error", 100, "AUSF"⟩
    (by decide) (by decide) (by decide)⟩

lemma backoff_shift (attempt n : ℕ) :
    (2:ℕ) ^ attempt :: (List.range n).map (fun i => 2 ^ (attempt + 1 + i)) =
    (List.range (n + 1)).map (fun i => 2 ^ (attempt + i)) := by
  rw [List.range_succ_eq_map]
  simp only [List.map_cons, List.map_map, Nat.add_zero]
  refine congrArg₂ List.cons rfl ?_
  apply List.map_congr_left
  intro i hi
  simp only [Function.comp_apply]
  congr 1
  omega

lemma execute_cypher_loop_all_transient {α : Type}
    (behavior : ℕ → CypherOutcome α) :
    ∀ (rem attempt : ℕ) (lastErr : Option CypherError), 1 ≤ rem →
      (∀ k, attempt ≤ k → k < attempt + rem → behavior k = .transientErr) →
      (execute_cypher_loop behavior rem attempt lastErr).result =
        .error .transientErr ∧
      (execute_cypher_loop behavior rem attempt lastErr).sleeps =
        (List.range (rem - 1)).map (fun i => 2 ^ (attempt + i)) := by
  intro rem
  induction rem with
  | zero => intro attempt lastErr h1; omega
  | succ r ih =>
    intro attempt lastErr h1 hall
    rw [execute_cypher_loop]
    have hb : behavior attempt = .transientErr :=
      hall attempt le_rfl (by omega)
    rw [hb]
    cases r with
    | zero =>
      simp [execute_cypher_loop]
    | succ r2 =>
      rw [if_pos (by omega)]
      obtain ⟨ihr, ihs⟩ := ih (attempt + 1) (some .transientErr) (by omega)
        (fun k hk1 hk2 => hall k (by omega) (by omega))
      dsimp only
      refine ⟨ihr, ?_⟩
      rw [ihs]
      simp only [Nat.add_sub_cancel]
      exact backoff_shift attempt r2

lemma execute_cypher_loop_recovers {α : Type}
    (behavior : ℕ → CypherOutcome α) :
    ∀ (j rem attempt : ℕ) (lastErr : Option CypherError)
      (rows : List α), j < rem →
      (∀ k, k < j → behavior (attempt + k) = .transientErr) →
      behavior (attempt + j) = .ok rows →
      execute_cypher_loop behavior rem attempt lastErr =
        ⟨.ok rows, (List.range j).map (fun i => 2 ^ (attempt + i))⟩ := by
  intro j
  induction j with
  | zero =>
    intro rem attempt lastErr rows hlt htrans hok
    cases rem with
    | zero => omega
    | succ r =>
      rw [execute_cypher_loop]
      rw [show attempt + 0 = attempt from rfl] at hok
      rw [hok]
      simp
  | succ j ih =>
    intro rem attempt lastErr rows hlt htrans hok
    cases rem with
    | zero => omega
    | succ r =>
      rw [execute_cypher_loop]
      have hb : behavior attempt = .transientErr := by
        have := htrans 0 (by omega)
        simpa using this
      rw [hb]
      rw [if_pos (by omega)]
      have ihr := ih r (attempt + 1) (some .transientErr) rows (by omega)
        (fun k hk => by
          have := htrans (k + 1) (by omega)
          simpa [Nat.add_assoc, Nat.add_comm 1 k] using this)
        (by
          have : attempt + 1 + j = attempt + (j + 1) := by omega
          rw [this]
          exact hok)
      rw [ihr]
      dsimp only
      congr 1
      exact backoff_shift attempt j

/-- A connection behaviour that fails transiently on the first attempt
and succeeds from the second attempt on. -/
def transientOnceBehavior : ℕ → CypherOutcome Unit :=
  fun n => if n = 0 then .transientErr else .ok []

/-- Counterexample to C4: trace ingest and incident cleanup go through
`execute_cypher_write`, which performs a single attempt with no retry
and no backoff — on a transient error that a single retry would
recover (as the read path's `execute_cypher` demonstrates on the same
behaviour, succeeding after one 2^0 backoff sleep), both write
operations propagate the failure immediately. -/
theorem ingest_cleanup_do_not_retry :
    ingest_captured_trace transientOnceBehavior = .error .transientErr
    ∧ cleanup_incident_traces transientOnceBehavior = .error .transientErr
    ∧ (execute_cypher transientOnceBehavior 3).result = .ok []
    ∧ (execute_cypher transientOnceBehavior 3).sleeps = [1] :=
  ⟨rfl, rfl, rfl, rfl⟩

/-- C4 (amended): the read path (`execute_cypher`, used by deviation
detection and reference loading) retries transient connectivity errors
with exponential backoff of `2^attempt` time units up to the
configurable attempt bound, propagating the last error once exhausted
and returning the rows as soon as an attempt succeeds; the write path
(`execute_cypher_write`, used by ingest and cleanup) performs a single
attempt and propagates any failure immediately, with no retry. -/
theorem memgraph_retry_discipline :
    (∀ (α : Type) (behavior : ℕ → CypherOutcome α) (retries : ℕ),
      1 ≤ retries →
      (∀ k, k < retries → behavior k = .transientErr) →
      (execute_cypher behavior retries).result = .error .transientErr ∧
      (execute_cypher behavior retries).sleeps =
        (List.range (retries - 1)).map (fun i => 2 ^ i))
    ∧ (∀ (α : Type) (behavior : ℕ → CypherOutcome α) (retries j : ℕ)
        (rows : List α),
      j < retries →
      (∀ k, k < j → behavior k = .transientErr) →
      behavior j = .ok rows →
      (execute_cypher behavior retries).result = .ok rows ∧
      (execute_cypher behavior retries).sleeps =
        (List.range j).map (fun i => 2 ^ i))
    ∧ (∀ (behavior : ℕ → CypherOutcome Deviation) (retries : ℕ),
      detect_deviation_call behavior retries =
        ((execute_cypher behavior retries).result.map List.head?,
          (execute_cypher behavior retries).sleeps))
    ∧ (∀ (α : Type) (behavior : ℕ → CypherOutcome α),
      behavior 0 = .transientErr →
      ingest_captured_trace behavior = .error .transientErr ∧
      cleanup_incident_traces behavior = .error .transientErr) := by
  refine ⟨fun α behavior retries h1 hall => ?_,
    fun α behavior retries j rows hlt htrans hok => ?_,
    fun behavior retries => rfl,
    fun α behavior hb => ?_⟩
  · obtain ⟨hr, hs⟩ := execute_cypher_loop_all_transient behavior retries 0
      none h1 (fun k hk1 hk2 => hall k (by omega))
    refine ⟨hr, ?_⟩
    rw [execute_cypher, hs]
    simp
  · have h := execute_cypher_loop_recovers behavior j retries 0 none rows hlt
      (fun k hk => by simpa using htrans k hk) (by simpa using hok)
    rw [execute_cypher, h]
    exact ⟨rfl, by simp⟩
  · rw [ingest_captured_trace, cleanup_incident_traces,
      execute_cypher_write, hb]
    exact ⟨rfl, rfl⟩

/-- Witness for C4 (amended): on `transientOnceBehavior` with the
default 3 attempts the read path recovers at the second attempt after
one backoff sleep of `2^0`, while ingest does not retry. -/
theorem memgraph_retry_discipline_witness :
    ((execute_cypher transientOnceBehavior 3).result = .ok [] ∧
      (execute_cypher transientOnceBehavior 3).sleeps = [1]) ∧
    ingest_captured_trace transientOnceBehavior = .error .transientErr := by
  have h := memgraph_retry_discipline.2.1 Unit transientOnceBehavior 3 1 []
    (by decide)
    (fun k hk => by
      have hk0 : k = 0 := by omega
      rw [hk0]; rfl)
    rfl
  have h2 := memgraph_retry_discipline.2.2.2 Unit transientOnceBehavior rfl
  exact ⟨⟨h.1, by rw [h.2]; rfl⟩, h2.1⟩

lemma fetch_direct_foldl (backend : String → FetchOutcome LogRecord) :
    ∀ (queries : List String) (acc : List LogRecord),
      queries.foldl (fun acc q =>
        match backend q with
        | .ok logs => acc ++ logs
        | _ => acc) acc =
      acc ++ (queries.map (fun q => okRecords (backend q))).flatten := by
  intro queries
  induction queries with
  | nil => intro acc; simp
  | cons q qs ih =>
    intro acc
    simp only [List.foldl_cons, List.map_cons, List.flatten_cons]
    cases hb : backend q <;>
      simp [okRecords, ih, List.append_assoc]

lemma fetch_prometheus_isolates (backend : String → FetchOutcome PromEntry) :
    ∀ (queries : List String),
      (∀ q ∈ queries, backend q ≠ .otherExc) →
      fetch_prometheus_metrics backend queries =
        .ok ((queries.map (fun q => okRecords (backend q))).flatten) := by
  intro queries
  induction queries with
  | nil => intro _; rfl
  | cons q qs ih =>
    intro hno
    rw [fetch_prometheus_metrics]
    have hqs : ∀ q ∈ qs, backend q ≠ .otherExc :=
      fun q hq => hno q (List.mem_cons_of_mem _ hq)
    cases hb : backend q with
    | ok recs => simp [okRecords, hb, ih hqs, Except.map]
    | mcpTimeout => simp [okRecords, hb, ih hqs]
    | mcpQueryErr => simp [okRecords, hb, ih hqs]
    | otherExc => exact absurd hb (hno q (List.mem_cons_self q qs))

lemma fetch_loki_go_aborts (backend : String → FetchOutcome LogRecord) :
    ∀ (queries : List String),
      (∃ q ∈ queries, isOkOutcome (backend q) = false) →
      fetch_loki_logs_go backend queries = .error () := by
  intro queries
  induction queries with
  | nil => rintro ⟨q, hq, -⟩; simp at hq
  | cons q qs ih =>
    rintro ⟨q', hq', hnot⟩
    rw [fetch_loki_logs_go]
    cases hb : backend q with
    | ok logs =>
      rcases List.mem_cons.mp hq' with rfl | hmem
      · rw [hb] at hnot; simp [isOkOutcome] at hnot
      · rw [ih ⟨q', hmem, hnot⟩]
    | mcpTimeout => rfl
    | mcpQueryErr => rfl
    | otherExc => rfl

/-- One normalized log record returned by the first Loki query. -/
def logRecordW : LogRecord :=
  ⟨100, "ERROR amf failure", [("k8s_pod_name", "amf-1")], "amf-1", "ERROR"⟩

/-- A backend on which the first query succeeds with one record and
every other query times out. -/
def flakyBackend : String → FetchOutcome LogRecord :=
  fun q => if q = "q1" then .ok [logRecordW] else .mcpTimeout

/-- Counterexample to C3: on the primary (MCP) Loki path there is no
per-query failure isolation — with query `q1` returning a record and
query `q2` timing out, the batch aborts and the agent degrades to an
empty log list, discarding the sibling record that the direct fallback
path (which does isolate) returns. -/
theorem mcp_loki_batch_not_isolated :
    logs_agent_fetch true flakyBackend ["q1", "q2"] = []
    ∧ fetch_loki_logs flakyBackend ["q1", "q2"] = .error ()
    ∧ logs_agent_fetch false flakyBackend ["q1", "q2"] = [logRecordW] :=
  ⟨rfl, rfl, rfl⟩

/-- C3 (amended): per-query failure isolation holds on the direct Loki
fallback path for every failure kind, and on the Prometheus MCP path
for timeouts and MCP query errors (a non-MCP exception such as a
malformed-payload JSON error aborts the batch); on the Loki MCP path a
single failing query aborts the whole batch; in every case the agent
catches the batch failure and proceeds with an empty record list, so
nothing propagates to the workflow. -/
theorem fetch_failure_isolation :
    (∀ (backend : String → FetchOutcome LogRecord) (queries : List String),
      fetch_loki_logs_direct backend queries =
        (queries.map (fun q => okRecords (backend q))).flatten)
    ∧ (∀ (backend : String → FetchOutcome PromEntry) (queries : List String),
      (∀ q ∈ queries, backend q ≠ .otherExc) →
      fetch_prometheus_metrics backend queries =
        .ok ((queries.map (fun q => okRecords (backend q))).flatten)
      ∧ metrics_agent_fetch backend queries =
        (queries.map (fun q => okRecords (backend q))).flatten)
    ∧ (∀ (backend : String → FetchOutcome LogRecord) (queries : List String),
      (∃ q ∈ queries, isOkOutcome (backend q) = false) →
      fetch_loki_logs backend queries = .error () ∧
      logs_agent_fetch true backend queries = []) := by
  refine ⟨fun backend queries => ?_,
    fun backend queries hno => ?_,
    fun backend queries hex => ?_⟩
  · rw [fetch_loki_logs_direct]
    simpa using fetch_direct_foldl backend queries []
  · have h := fetch_prometheus_isolates backend queries hno
    exact ⟨h, by rw [metrics_agent_fetch, h]⟩
  · have h : fetch_loki_logs backend queries = .error () := by
      rw [fetch_loki_logs, fetch_loki_go_aborts backend queries hex]
      rfl
    exact ⟨h, by rw [logs_agent_fetch, if_pos rfl, h]⟩

/-- Witness for C3 (amended): on the flaky backend the direct path
keeps the sibling record, and the MCP path aborts to an empty list. -/
theorem fetch_failure_isolation_witness :
    fetch_loki_logs_direct flakyBackend ["q1", "q2"] =
      (["q1", "q2"].map (fun q => okRecords (flakyBackend q))).flatten
    ∧ fetch_loki_logs flakyBackend ["q1", "q2"] = .error ()
    ∧ logs_agent_fetch true flakyBackend ["q1", "q2"] = [] :=
  ⟨fetch_failure_isolation.1 flakyBackend ["q1", "q2"],
    fetch_failure_isolation.2.2 flakyBackend ["q1", "q2"]
      ⟨"q2", by decide, rfl⟩⟩
